import Mathlib

/- Verification development for the OCALL gateway of the Graphene SGX PAL
   (src/Pal/src/host/Linux-SGX/enclave_ocalls.c).

   The wrapper functions of enclave_ocalls.c are embedded as pure Lean
   functions.  Pointers are modelled as natural-number addresses; the enclave
   occupies one fixed address range and everything else is host memory.  Each
   wrapper is threaded through the state of the per-thread untrusted stack
   allocator and yields, besides its return value, the chronological list of
   host interactions (OCALL dispatches and copies into enclave memory) it
   performed.  The behaviour of the untrusted host is a parameter (HostIO).

   Helper primitives that enclave_ocalls.c calls but whose definitions live in
   files outside src/ (enclave_framework.c, sgx_internal.h, ocall_types.h) are
   modelled from the specification; each such definition carries a doc comment
   saying so. -/

/-- Size in bytes of the per-thread untrusted stack; the comment in
enclave_ocalls.c states THREAD_STACK_SIZE = 2MB. -/
def THREAD_STACK_SIZE : Nat := 2 * 1024 * 1024

/-- Limit for buffers placed on the untrusted stack, as defined in
enclave_ocalls.c: THREAD_STACK_SIZE / 4, i.e. 512 KiB. -/
def MAX_UNTRUSTED_STACK_BUF : Nat := THREAD_STACK_SIZE / 4

/-- Modelled from the spec: page granularity used by ALLOC_ALIGNUP; the PAL
headers defining it are not under src/. -/
def PRESET_PAGESIZE : Nat := 4096

/-- Modelled from the spec: ALLOC_ALIGNUP rounds a size up to the allocation
(page) granularity; its definition lives in PAL headers not under src/. -/
def ALLOC_ALIGNUP (x : Nat) : Nat :=
  (x + PRESET_PAGESIZE - 1) / PRESET_PAGESIZE * PRESET_PAGESIZE

/-- Linux error number EPERM. -/
def EPERM : Int := 1

/-- Linux error number EACCES. -/
def EACCES : Int := 13

/-- Linux error number EINVAL. -/
def EINVAL : Int := 22

/-- Linux error number EINTR. -/
def EINTR : Int := 4

/-- Linux error number EAGAIN. -/
def EAGAIN : Int := 11

/-- IS_ERR from pal_linux_error.h: a negative return value is an error. -/
def IS_ERR (r : Int) : Bool := r < 0

/-- The enclave occupies the address range [start, start + size); everything
outside it is host (untrusted) memory.  The two regions are fixed at enclave
creation (spec section 3). -/
structure EnclaveRegion where
  start : Nat
  size : Nat
deriving DecidableEq

/-- Modelled from the spec: BMC predicate entirely_outside (section 4.1);
sgx_is_completely_outside_enclave lives in enclave code not under src/.  The
region [p, p + n) touches no enclave byte. -/
def sgx_is_completely_outside_enclave (e : EnclaveRegion) (p n : Nat) : Bool :=
  decide (p + n ≤ e.start ∨ e.start + e.size ≤ p)

/-- Modelled from the spec: BMC predicate entirely_inside (section 4.1);
sgx_is_completely_within_enclave lives in enclave code not under src/.  The
region [p, p + n) lies wholly inside the enclave. -/
def sgx_is_completely_within_enclave (e : EnclaveRegion) (p n : Nat) : Bool :=
  decide (e.start ≤ p ∧ p + n ≤ e.start + e.size)

/-- Modelled from the spec: BMC copy_to_enclave (section 4.1), defined outside
src/.  Returns the number of bytes copied; it fails (returns 0) unless the
destination is entirely inside the enclave, the source entirely outside, and
n is at most the destination capacity. -/
def sgx_copy_to_enclave (e : EnclaveRegion) (dst cap src n : Nat) : Nat :=
  if sgx_is_completely_within_enclave e dst cap
     && sgx_is_completely_outside_enclave e src n
     && decide (n ≤ cap)
  then n else 0

/-- Modelled from the spec: BMC copy_ptr_to_enclave (section 4.1), defined
outside src/.  A host pointer may be assigned into an enclave variable only
after verifying the pointed region is entirely outside the enclave. -/
def sgx_copy_ptr_to_enclave (e : EnclaveRegion) (p n : Nat) : Bool :=
  sgx_is_completely_outside_enclave e p n

/-- Per-thread untrusted stack: a bump allocator over host addresses
[base, top), growing downward; cur is the current stack pointer. -/
structure UStack where
  base : Nat
  top : Nat
  cur : Nat
deriving DecidableEq

/-- Round an address down to a multiple of a. -/
def align_down (x a : Nat) : Nat := x - x % a

/-- Modelled from the spec: USA alloc (section 4.2), defined outside src/.
Moves the stack pointer down by n bytes; returns a null pointer (none) if the
remaining space is insufficient. -/
def sgx_alloc_on_ustack (u : UStack) (n : Nat) : Option Nat × UStack :=
  if u.base + n ≤ u.cur then
    (some (u.cur - n), { u with cur := u.cur - n })
  else (none, u)

/-- Modelled from the spec: USA alloc_aligned (section 4.2), defined outside
src/.  Like alloc but the returned pointer is aligned to a bytes. -/
def sgx_alloc_on_ustack_aligned (u : UStack) (n a : Nat) : Option Nat × UStack :=
  if u.base + n ≤ u.cur ∧ u.base ≤ align_down (u.cur - n) a then
    (some (align_down (u.cur - n) a), { u with cur := align_down (u.cur - n) a })
  else (none, u)

/-- Modelled from the spec: USA copy_in_from_enclave (section 4.2), defined
outside src/.  Allocates n bytes on the untrusted stack and copies the enclave
buffer there, returning the host pointer (none on exhaustion). -/
def sgx_copy_to_ustack (u : UStack) (n : Nat) : Option Nat × UStack :=
  sgx_alloc_on_ustack u n

/-- Modelled from the spec: USA reset (section 4.2), defined outside src/.
Restores the stack pointer to the fixed top of the untrusted stack. -/
def sgx_reset_ustack (u : UStack) : UStack := { u with cur := u.top }

/-- Modelled from the spec: the OCALL code table (section 3); the enumeration
in ocall_types.h is not under src/.  Only the distinctness of codes matters. -/
def OCALL_OPEN : Nat := 0

/-- OCALL code for close (see OCALL_OPEN). -/
def OCALL_CLOSE : Nat := 1

/-- OCALL code for read (see OCALL_OPEN). -/
def OCALL_READ : Nat := 2

/-- OCALL code for write (see OCALL_OPEN). -/
def OCALL_WRITE : Nat := 3

/-- OCALL code for mmap_untrusted (see OCALL_OPEN). -/
def OCALL_MMAP_UNTRUSTED : Nat := 8

/-- OCALL code for munmap_untrusted (see OCALL_OPEN). -/
def OCALL_MUNMAP_UNTRUSTED : Nat := 9

/-- OCALL code for exit (see OCALL_OPEN). -/
def OCALL_EXIT : Nat := 11

/-- OCALL code for clone_thread (see OCALL_OPEN). -/
def OCALL_CLONE_THREAD : Nat := 12

/-- OCALL code for resume_thread (see OCALL_OPEN). -/
def OCALL_RESUME_THREAD : Nat := 13

/-- OCALL code for futex (see OCALL_OPEN). -/
def OCALL_FUTEX : Nat := 15

/-- OCALL code for listen (see OCALL_OPEN). -/
def OCALL_LISTEN : Nat := 17

/-- OCALL code for send (see OCALL_OPEN). -/
def OCALL_SEND : Nat := 21

/-- OCALL code for sleep (see OCALL_OPEN). -/
def OCALL_SLEEP : Nat := 25

/-- OCALL code for get_attestation (see OCALL_OPEN). -/
def OCALL_GET_ATTESTATION : Nat := 30

/-- Modelled from the spec: byte sizes of the per-code argument structs
(ocall_types.h is not under src/); each code fixes the shape of its struct and
only positivity and smallness of the sizes matter for the properties. -/
def sizeof_ms_mmap : Nat := 40

/-- Size of ms_ocall_munmap_untrusted_t (see sizeof_ms_mmap). -/
def sizeof_ms_munmap : Nat := 16

/-- Size of ms_ocall_read_t (see sizeof_ms_mmap). -/
def sizeof_ms_read : Nat := 32

/-- Size of ms_ocall_write_t (see sizeof_ms_mmap). -/
def sizeof_ms_write : Nat := 32

/-- Size of ms_ocall_send_t (see sizeof_ms_mmap). -/
def sizeof_ms_send : Nat := 56

/-- Size of ms_ocall_listen_t (see sizeof_ms_mmap). -/
def sizeof_ms_listen : Nat := 48

/-- Size of ms_ocall_futex_t (see sizeof_ms_mmap). -/
def sizeof_ms_futex : Nat := 24

/-- Size of ms_ocall_sleep_t (see sizeof_ms_mmap). -/
def sizeof_ms_sleep : Nat := 8

/-- Size of ms_ocall_exit_t (see sizeof_ms_mmap). -/
def sizeof_ms_exit : Nat := 8

/-- Size of ms_ocall_close_t (see sizeof_ms_mmap). -/
def sizeof_ms_close : Nat := 8

/-- Size of rpc_request_t (rpcqueue.h is not under src/): ocall code, buffer
pointer, 4-byte-aligned lock word and result. -/
def sizeof_rpc_request : Nat := 24

/-- Observable host interactions of one wrapper run, in chronological order.
call code arg: an OCALL request of the given code handed to the host, with the
salient pointer/size argument; copyIn n: a copy of n bytes into enclave memory
performed on return (n = 0 when the BMC rejected the copy). -/
inductive Event where
  | call (code : Nat) (arg : Nat)
  | copyIn (n : Nat)
deriving DecidableEq

/-- Behaviour of the untrusted host during one wrapper run: the results that
the host dispatcher returns for each OCALL kind, the pointer it returns from
mmap_untrusted, and the value it leaves in the sleep argument struct. -/
structure HostIO where
  mmapRet : Int
  mmapMem : Nat
  munmapRet : Int
  readRet : Int
  writeRet : Int
  sendRet : Int
  futexRet : Int
  listenRet : Int
  listenAddrlen : Nat
  sleepRet : Int
  sleepRemaining : Nat
deriving DecidableEq

/-- Result of one wrapper run: return value, the wrapper's out-parameter (if
any), the untrusted stack state after the call and the host-interaction
trace. -/
structure OcRes (α : Type) where
  ret : Int
  out : α
  ustack : UStack
  events : List Event
deriving DecidableEq

/-- ocall_mmap_untrusted from enclave_ocalls.c: allocates the argument struct
on the untrusted stack, dispatches OCALL_MMAP_UNTRUSTED, and on success
assigns the host-returned pointer through the BMC check; the untrusted stack
is reset on every exit path.  The out component is the mem out-parameter. -/
def ocall_mmap_untrusted (env : EnclaveRegion) (h : HostIO)
    (_fd : Int) (_offset size _prot : Nat) (u : UStack) : OcRes (Option Nat) :=
  match sgx_alloc_on_ustack_aligned u sizeof_ms_mmap 8 with
  | (none, u1) => ⟨-EPERM, none, sgx_reset_ustack u1, []⟩
  | (some _, u1) =>
    let ev := [Event.call OCALL_MMAP_UNTRUSTED size]
    if h.mmapRet = 0 then
      if sgx_copy_ptr_to_enclave env h.mmapMem size then
        ⟨h.mmapRet, some h.mmapMem, sgx_reset_ustack u1, ev⟩
      else
        ⟨-EPERM, none, sgx_reset_ustack u1, ev⟩
    else ⟨h.mmapRet, none, sgx_reset_ustack u1, ev⟩

/-- ocall_munmap_untrusted from enclave_ocalls.c: rejects with -EINVAL, before
allocating or dispatching anything, any region that is not entirely outside
the enclave; otherwise dispatches OCALL_MUNMAP_UNTRUSTED. -/
def ocall_munmap_untrusted (env : EnclaveRegion) (h : HostIO)
    (mem size : Nat) (u : UStack) : OcRes Unit :=
  if !sgx_is_completely_outside_enclave env mem size then
    ⟨-EINVAL, (), sgx_reset_ustack u, []⟩
  else
    match sgx_alloc_on_ustack_aligned u sizeof_ms_munmap 8 with
    | (none, u1) => ⟨-EPERM, (), sgx_reset_ustack u1, []⟩
    | (some _, u1) =>
      ⟨h.munmapRet, (), sgx_reset_ustack u1, [Event.call OCALL_MUNMAP_UNTRUSTED mem]⟩

/-- ocall_futex from enclave_ocalls.c: rejects with -EINVAL, before allocating
or dispatching anything, a futex word that is not entirely outside the enclave
(sizeof(int) = 4 bytes); otherwise dispatches OCALL_FUTEX. -/
def ocall_futex (env : EnclaveRegion) (h : HostIO)
    (futex : Nat) (_op _val _timeout_us : Int) (u : UStack) : OcRes Unit :=
  if !sgx_is_completely_outside_enclave env futex 4 then
    ⟨-EINVAL, (), sgx_reset_ustack u, []⟩
  else
    match sgx_alloc_on_ustack_aligned u sizeof_ms_futex 8 with
    | (none, u1) => ⟨-EPERM, (), sgx_reset_ustack u1, []⟩
    | (some _, u1) =>
      ⟨h.futexRet, (), sgx_reset_ustack u1, [Event.call OCALL_FUTEX futex]⟩

/-- ocall_sleep from enclave_ocalls.c: stores the requested microseconds into
the argument struct, dispatches OCALL_SLEEP via the direct (non-exitless)
path, and on return writes 0 into the caller's variable on success, the
host-reported remaining time on -EINTR, and leaves it unchanged otherwise.
The out component is the final value behind the microsec pointer (none for a
null pointer). -/
def ocall_sleep (h : HostIO) (microsec : Option Nat) (u : UStack) :
    OcRes (Option Nat) :=
  match sgx_alloc_on_ustack_aligned u sizeof_ms_sleep 8 with
  | (none, u1) => ⟨-EPERM, microsec, sgx_reset_ustack u1, []⟩
  | (some _, u1) =>
    let req := match microsec with | some v => v | none => 0
    let retval := h.sleepRet
    let ev := [Event.call OCALL_SLEEP req]
    match microsec with
    | none => ⟨retval, none, sgx_reset_ustack u1, ev⟩
    | some v =>
      if retval = 0 then ⟨retval, some 0, sgx_reset_ustack u1, ev⟩
      else if retval = -EINTR then
        ⟨retval, some h.sleepRemaining, sgx_reset_ustack u1, ev⟩
      else ⟨retval, some v, sgx_reset_ustack u1, ev⟩

/-- The common exit path (label out) of ocall_read: reset the untrusted stack
and, when a host-heap bounce buffer was mapped, unmap it via
ocall_munmap_untrusted, as the source does on every exit path. -/
def ocall_read_out (env : EnclaveRegion) (h : HostIO) (retval : Int)
    (count : Nat) (obuf : Option Nat) (u : UStack) (ev : List Event) :
    OcRes Unit :=
  let u1 := sgx_reset_ustack u
  match obuf with
  | some o =>
    let m := ocall_munmap_untrusted env h o (ALLOC_ALIGNUP count) u1
    ⟨retval, (), m.ustack, ev ++ m.events⟩
  | none => ⟨retval, (), u1, ev⟩

/-- The part of ocall_read after the large-buffer mmap decision: allocate the
argument struct, pick the data buffer (host-heap obuf if mapped, untrusted
stack otherwise), dispatch OCALL_READ, and copy the host-reported number of
bytes into the enclave buffer through the BMC. -/
def ocall_read_body (env : EnclaveRegion) (h : HostIO) (_fd : Int)
    (buf count : Nat) (obuf : Option Nat) (u : UStack) (ev0 : List Event) :
    OcRes Unit :=
  match sgx_alloc_on_ustack_aligned u sizeof_ms_read 8 with
  | (none, u1) => ocall_read_out env h (-EPERM) count obuf u1 ev0
  | (some _, u1) =>
    let bu : Option Nat × UStack :=
      match obuf with
      | some o => (some o, u1)
      | none => sgx_alloc_on_ustack u1 count
    match bu with
    | (none, u2) => ocall_read_out env h (-EPERM) count obuf u2 ev0
    | (some b, u2) =>
      let retval := h.readRet
      let ev1 := ev0 ++ [Event.call OCALL_READ b]
      if 0 < retval then
        let copied := sgx_copy_to_enclave env buf count b retval.toNat
        let ev2 := ev1 ++ [Event.copyIn copied]
        if copied = 0 then ocall_read_out env h (-EPERM) count obuf u2 ev2
        else ocall_read_out env h retval count obuf u2 ev2
      else ocall_read_out env h retval count obuf u2 ev1

/-- ocall_read from enclave_ocalls.c.  For count above
MAX_UNTRUSTED_STACK_BUF the bulk buffer is first obtained from the host heap
via ocall_mmap_untrusted (an error there returns immediately); the rest of the
call is ocall_read_body followed by the common exit path. -/
def ocall_read (env : EnclaveRegion) (h : HostIO) (fd : Int)
    (buf count : Nat) (u : UStack) : OcRes Unit :=
  if MAX_UNTRUSTED_STACK_BUF < count then
    let m := ocall_mmap_untrusted env h (-1) 0 (ALLOC_ALIGNUP count) 3 u
    if IS_ERR m.ret then ⟨m.ret, (), m.ustack, m.events⟩
    else ocall_read_body env h fd buf count m.out m.ustack m.events
  else ocall_read_body env h fd buf count none u []

/-- The common exit path (label out) of ocall_write and ocall_send: reset the
untrusted stack and unmap the host-heap bounce buffer unless it is the
caller's own (already untrusted) buffer. -/
def ocall_write_out (env : EnclaveRegion) (h : HostIO) (retval : Int)
    (buf count : Nat) (obuf : Option Nat) (u : UStack) (ev : List Event) :
    OcRes Unit :=
  let u1 := sgx_reset_ustack u
  match obuf with
  | some o =>
    if o ≠ buf then
      let m := ocall_munmap_untrusted env h o (ALLOC_ALIGNUP count) u1
      ⟨retval, (), m.ustack, ev ++ m.events⟩
    else ⟨retval, (), u1, ev⟩
  | none => ⟨retval, (), u1, ev⟩

/-- The part of ocall_write after buffer classification: allocate the argument
struct, use the pass-through or host-heap buffer when obuf is set and a copy
onto the untrusted stack otherwise, and dispatch OCALL_WRITE. -/
def ocall_write_body (env : EnclaveRegion) (h : HostIO) (_fd : Int)
    (buf count : Nat) (obuf : Option Nat) (u : UStack) (ev0 : List Event) :
    OcRes Unit :=
  match sgx_alloc_on_ustack_aligned u sizeof_ms_write 8 with
  | (none, u1) => ocall_write_out env h (-EPERM) buf count obuf u1 ev0
  | (some _, u1) =>
    let bu : Option Nat × UStack :=
      match obuf with
      | some o => (some o, u1)
      | none => sgx_copy_to_ustack u1 count
    match bu with
    | (none, u2) => ocall_write_out env h (-EPERM) buf count obuf u2 ev0
    | (some b, u2) =>
      ocall_write_out env h h.writeRet buf count obuf u2
        (ev0 ++ [Event.call OCALL_WRITE b])

/-- ocall_write from enclave_ocalls.c.  The caller's buffer is classified
against the enclave boundary: entirely outside passes through untouched,
entirely inside goes through the untrusted stack (or, above
MAX_UNTRUSTED_STACK_BUF, a host-heap mapping), and a straddling buffer is
rejected with -EPERM before anything is allocated or dispatched. -/
def ocall_write (env : EnclaveRegion) (h : HostIO) (fd : Int)
    (buf count : Nat) (u : UStack) : OcRes Unit :=
  if sgx_is_completely_outside_enclave env buf count then
    ocall_write_body env h fd buf count (some buf) u []
  else if sgx_is_completely_within_enclave env buf count then
    if MAX_UNTRUSTED_STACK_BUF < count then
      let m := ocall_mmap_untrusted env h (-1) 0 (ALLOC_ALIGNUP count) 3 u
      if IS_ERR m.ret then ⟨m.ret, (), m.ustack, m.events⟩
      else ocall_write_body env h fd buf count m.out m.ustack m.events
    else ocall_write_body env h fd buf count none u []
  else ⟨-EPERM, (), u, []⟩

/-- The part of ocall_send after buffer classification: allocate the argument
struct, copy the optional address and control buffers onto the untrusted
stack, pick the data buffer as in ocall_write, and dispatch OCALL_SEND. -/
def ocall_send_body (env : EnclaveRegion) (h : HostIO) (_sockfd : Int)
    (buf count : Nat) (addr : Option Nat) (addrlen : Nat)
    (control : Option Nat) (controllen : Nat) (obuf : Option Nat)
    (u : UStack) (ev0 : List Event) : OcRes Unit :=
  match sgx_alloc_on_ustack_aligned u sizeof_ms_send 8 with
  | (none, u1) => ocall_write_out env h (-EPERM) buf count obuf u1 ev0
  | (some _, u1) =>
    let au : Option Nat × UStack :=
      match addr with
      | some _ => sgx_copy_to_ustack u1 addrlen
      | none => (none, u1)
    let cu : Option Nat × UStack :=
      match control with
      | some _ => sgx_copy_to_ustack au.2 controllen
      | none => (none, au.2)
    let bu : Option Nat × UStack :=
      match obuf with
      | some o => (some o, cu.2)
      | none => sgx_copy_to_ustack cu.2 count
    match bu with
    | (none, u2) => ocall_write_out env h (-EPERM) buf count obuf u2 ev0
    | (some b, u2) =>
      if addr.isSome && au.1.isNone then
        ocall_write_out env h (-EPERM) buf count obuf u2 ev0
      else
        ocall_write_out env h h.sendRet buf count obuf u2
          (ev0 ++ [Event.call OCALL_SEND b])

/-- ocall_send from enclave_ocalls.c.  Buffer classification is identical to
ocall_write (a straddling buffer is rejected with -EPERM before anything is
allocated or dispatched); the large-buffer test counts the data, address and
control lengths together. -/
def ocall_send (env : EnclaveRegion) (h : HostIO) (sockfd : Int)
    (buf count : Nat) (addr : Option Nat) (addrlen : Nat)
    (control : Option Nat) (controllen : Nat) (u : UStack) : OcRes Unit :=
  if sgx_is_completely_outside_enclave env buf count then
    ocall_send_body env h sockfd buf count addr addrlen control controllen
      (some buf) u []
  else if sgx_is_completely_within_enclave env buf count then
    if MAX_UNTRUSTED_STACK_BUF < count + addrlen + controllen then
      let m := ocall_mmap_untrusted env h (-1) 0 (ALLOC_ALIGNUP count) 3 u
      if IS_ERR m.ret then ⟨m.ret, (), m.ustack, m.events⟩
      else ocall_send_body env h sockfd buf count addr addrlen control
        controllen m.out m.ustack m.events
    else ocall_send_body env h sockfd buf count addr addrlen control
      controllen none u []
  else ⟨-EPERM, (), u, []⟩

/-- ocall_listen from enclave_ocalls.c.  The caller's address capacity is read
from the addrlen pointer; the address buffer is copied onto the untrusted
stack, OCALL_LISTEN is dispatched, and on a non-negative result the
host-reported address (of host-reported length ms_addrlen) is copied back
through the BMC with the caller's capacity as the bound; the number of bytes
the BMC reports copied is stored back through the addrlen pointer.  The out
component is the final value behind the addrlen pointer. -/
def ocall_listen (env : EnclaveRegion) (h : HostIO)
    (_domain _type _protocol : Int) (addr : Option Nat)
    (addrlen : Option Nat) (u : UStack) : OcRes (Option Nat) :=
  let len := match addrlen with | some l => l | none => 0
  match sgx_alloc_on_ustack_aligned u sizeof_ms_listen 8 with
  | (none, u1) => ⟨-EPERM, addrlen, sgx_reset_ustack u1, []⟩
  | (some _, u1) =>
    let au : Option Nat × UStack :=
      match addr with
      | some _ => if len ≠ 0 then sgx_copy_to_ustack u1 len else (none, u1)
      | none => (none, u1)
    if addr.isSome && len ≠ 0 && au.1.isNone then
      ⟨-EPERM, addrlen, sgx_reset_ustack au.2, []⟩
    else
      let msaddr := match au.1 with | some b => b | none => 0
      let retval := h.listenRet
      let ev := [Event.call OCALL_LISTEN msaddr]
      if 0 ≤ retval then
        match addr, au.1 with
        | some ap, some b =>
          if len ≠ 0 then
            let copied := sgx_copy_to_enclave env ap len b h.listenAddrlen
            let ev1 := ev ++ [Event.copyIn copied]
            if copied = 0 then ⟨-EPERM, addrlen, sgx_reset_ustack au.2, ev1⟩
            else ⟨retval, some copied, sgx_reset_ustack au.2, ev1⟩
          else ⟨retval, addrlen, sgx_reset_ustack au.2, ev⟩
        | _, _ => ⟨retval, addrlen, sgx_reset_ustack au.2, ev⟩
      else ⟨retval, addrlen, sgx_reset_ustack au.2, ev⟩

/-- Which path sgx_exitless_ocall takes, determined by the environment:
noQueue when g_rpc_queue is null, queueFull when rpc_enqueue returns null,
fast when the worker finishes within the spin bound, and slow (with the list
of host futex-wait results) when the enclave thread falls back to futex
waiting. -/
inductive RpcMode where
  | noQueue
  | queueFull
  | fast
  | slow (futexRets : List Int)
deriving DecidableEq

/-- The futex-wait loop of the slow path of sgx_exitless_ocall: each host
futex result that is negative and different from -EAGAIN aborts the call
(the caller then returns -EPERM); the loop also records the direct OCALL_FUTEX
dispatches it performed. -/
def exitless_futex_loop : List Int → Bool × List Event
  | [] => (true, [])
  | r :: rest =>
    if r < 0 && r ≠ -EAGAIN then (false, [Event.call OCALL_FUTEX 0])
    else
      let t := exitless_futex_loop rest
      (t.1, Event.call OCALL_FUTEX 0 :: t.2)

/-- Whether the futex waits of a mode all end benignly (vacuously true for the
non-slow modes). -/
def futexRetsOk : RpcMode → Bool
  | RpcMode.slow frets => (exitless_futex_loop frets).1
  | _ => true

/-- sgx_exitless_ocall from enclave_ocalls.c.  hostRes is the result the host
produces for this request (returned by sgx_ocall on the direct path and
written into the request descriptor by the RPC worker on the exitless path).
With no RPC queue the call goes straight to sgx_ocall.  Otherwise a request
descriptor is allocated on the untrusted stack with unchecked result (none
models the resulting null-pointer write), and on the slow path the futex
argument struct is allocated there too; neither allocation is ever released
by this function.  A fatal futex error surfaces as -EPERM. -/
def sgx_exitless_ocall (code : Nat) (hostRes : Int) (mode : RpcMode)
    (u : UStack) : Option (Int × UStack × List Event) :=
  match mode with
  | RpcMode.noQueue => some (hostRes, u, [Event.call code 0])
  | RpcMode.queueFull =>
    match sgx_alloc_on_ustack_aligned u sizeof_rpc_request 4 with
    | (none, _) => none
    | (some _, u1) => some (hostRes, u1, [Event.call code 0])
  | RpcMode.fast =>
    match sgx_alloc_on_ustack_aligned u sizeof_rpc_request 4 with
    | (none, _) => none
    | (some _, u1) => some (hostRes, u1, [Event.call code 0])
  | RpcMode.slow frets =>
    match sgx_alloc_on_ustack_aligned u sizeof_rpc_request 4 with
    | (none, _) => none
    | (some _, u1) =>
      match sgx_alloc_on_ustack_aligned u1 sizeof_ms_futex 8 with
      | (none, _) => none
      | (some _, u2) =>
        let t := exitless_futex_loop frets
        if t.1 then some (hostRes, u2, Event.call code 0 :: t.2)
        else some (-EPERM, u2, Event.call code 0 :: t.2)

/-- ocall_resume_thread from enclave_ocalls.c: passes the tcs pointer directly
as the argument buffer and returns whatever sgx_exitless_ocall returns; note
that it performs no sgx_reset_ustack. -/
def ocall_resume_thread (hostRes : Int) (mode : RpcMode) (_tcs : Nat)
    (u : UStack) : Option (Int × UStack × List Event) :=
  sgx_exitless_ocall OCALL_RESUME_THREAD hostRes mode u

/-- ocall_clone_thread from enclave_ocalls.c: passes a null dummy argument and
returns whatever sgx_exitless_ocall returns; note that it performs no
sgx_reset_ustack. -/
def ocall_clone_thread (hostRes : Int) (mode : RpcMode) (u : UStack) :
    Option (Int × UStack × List Event) :=
  sgx_exitless_ocall OCALL_CLONE_THREAD hostRes mode u

/-- ocall_close from enclave_ocalls.c: allocates its argument struct on the
untrusted stack, dispatches through sgx_exitless_ocall, and resets the
untrusted stack on every exit path. -/
def ocall_close (hostRes : Int) (mode : RpcMode) (_fd : Int) (u : UStack) :
    Option (Int × UStack × List Event) :=
  match sgx_alloc_on_ustack_aligned u sizeof_ms_close 8 with
  | (none, u1) => some (-EPERM, sgx_reset_ustack u1, [])
  | (some _, u1) =>
    match sgx_exitless_ocall OCALL_CLOSE hostRes mode u1 with
    | none => none
    | some (r, u2, ev) => some (r, sgx_reset_ustack u2, ev)

/-- Control state of the while(true) loop of ocall_exit: either still looping
(having issued iter exit OCALLs so far) or having returned to the caller,
which the code never does. -/
inductive ExitPhase where
  | looping (iter : Nat)
  | returned (r : Int)
deriving DecidableEq

/-- The while(true) loop of ocall_exit, run for a given number of steps: each
iteration issues the exit OCALL, the host answers with hostRets i, and the
code continues regardless of that value (every host answer is matched by the
same wildcard, mirroring the discarded return value of sgx_ocall). -/
def ocall_exit_loop (hostRets : Nat → Int) : Nat → ExitPhase
  | 0 => ExitPhase.looping 0
  | n + 1 =>
    match ocall_exit_loop hostRets n with
    | ExitPhase.looping i =>
      match hostRets i with
      | _ => ExitPhase.looping (i + 1)
    | ExitPhase.returned r => ExitPhase.returned r

/-- ocall_exit from enclave_ocalls.c: allocates the argument struct (the null
result is unchecked by the code; none models the resulting null-pointer
write) and enters the infinite re-issue loop, observed here after fuel
iterations. -/
def ocall_exit (hostRets : Nat → Int) (_exitcode _is_exitgroup : Int)
    (u : UStack) (fuel : Nat) : Option ExitPhase :=
  match (sgx_alloc_on_ustack_aligned u sizeof_ms_exit 8).1 with
  | none => none
  | some _ => some (ocall_exit_loop hostRets fuel)

/-- Provenance of one pointer field of the attestation struct: the C null
pointer, a pointer into host memory, or a pointer to an enclave heap
allocation carrying its allocation id. -/
inductive PtrProv where
  | null
  | host
  | encl (id : Nat)
deriving DecidableEq

/-- The four returned buffer fields of sgx_attestation_t (the QE report is
embedded by value and needs no copy). -/
structure sgx_attestation_t where
  quote : PtrProv
  ias_report : PtrProv
  ias_sig : PtrProv
  ias_certs : PtrProv
deriving DecidableEq

/-- Host-determined fate of one attestation blob: whether the host returned a
non-null pointer for it, whether the enclave malloc for its copy succeeds,
and whether the BMC copy of its bytes succeeds. -/
structure FieldCfg where
  present : Bool
  mallocOk : Bool
  copyOk : Bool
deriving DecidableEq

/-- One run of ocall_get_attestation, fully determined by the host and
allocator behaviour: the dispatch result, whether the whole-struct copy into
the enclave succeeds, and the fate of each of the four blobs. -/
structure AttCfg where
  dispatchRet : Int
  structCopyOk : Bool
  quote : FieldCfg
  ias_report : FieldCfg
  ias_sig : FieldCfg
  ias_certs : FieldCfg
deriving DecidableEq

/-- Observable outcome of ocall_get_attestation: return value, final field
provenances, whether every host blob region was munmapped, and the lists of
enclave heap allocations made and freed during the call. -/
structure AttResult where
  retval : Int
  att : sgx_attestation_t
  unmappedAll : Bool
  allocated : List Nat
  freed : List Nat
deriving DecidableEq

/-- One per-field block of ocall_get_attestation: if the host blob is present,
malloc an enclave buffer (id), copy the blob through the BMC (a failed malloc
makes the copy fail), munmap the host region regardless, and overwrite the
field with the malloc result; a failed copy downgrades retval to -EACCES.
The ias_report and ias_certs blocks additionally write a null terminator
through the malloc result unconditionally (enclave_ocalls.c writes
ias_report[len] = 0 and ias_certs[len] = 0 after the munmap); nullTerm
records this, and when the malloc failed that write dereferences the null
pointer, so the run crashes (none) instead of reaching the return.  On a
non-crashing run the block yields the new field value, the new retval, and
the allocations made. -/
def att_field (c : FieldCfg) (nullTerm : Bool) (id : Nat) (retval : Int) :
    Option (PtrProv × Int × List Nat) :=
  if c.present then
    if c.mallocOk then
      some (PtrProv.encl id, if c.copyOk then retval else -EACCES, [id])
    else
      if nullTerm then none
      else some (PtrProv.null, -EACCES, [])
  else some (PtrProv.null, retval, [])

/-- The enclave buffers freed by the final error block of
ocall_get_attestation: each non-null field is freed. -/
def att_free_field : PtrProv → List Nat
  | PtrProv.encl id => [id]
  | _ => []

/-- ocall_get_attestation from enclave_ocalls.c.  att0 is the caller's struct
before the call.  After a successful dispatch the whole argument struct is
copied into the enclave (fields pointing at the four host blobs); then each
blob is copied into a fresh enclave allocation, its host region is munmapped
and the field is overwritten with the enclave pointer.  The ias_report and
ias_certs blocks null-terminate their buffers unconditionally, so a failed
malloc there crashes the run (none) before any return.  If the run completes
and any copy failed, the function returns -EACCES and frees every enclave
buffer it allocated. -/
def ocall_get_attestation (c : AttCfg) (att0 : sgx_attestation_t) :
    Option AttResult :=
  if c.dispatchRet < 0 then
    some ⟨c.dispatchRet, att0, !(c.quote.present || c.ias_report.present
      || c.ias_sig.present || c.ias_certs.present), [], []⟩
  else if !c.structCopyOk then
    some ⟨-EACCES, att0, !(c.quote.present || c.ias_report.present
      || c.ias_sig.present || c.ias_certs.present), [], []⟩
  else
    match att_field c.quote false 0 c.dispatchRet with
    | none => none
    | some f1 =>
      match att_field c.ias_report true 1 f1.2.1 with
      | none => none
      | some f2 =>
        match att_field c.ias_sig false 2 f2.2.1 with
        | none => none
        | some f3 =>
          match att_field c.ias_certs true 3 f3.2.1 with
          | none => none
          | some f4 =>
            let r := f4.2.1
            let att := sgx_attestation_t.mk f1.1 f2.1 f3.1 f4.1
            let allocated := f1.2.2 ++ f2.2.2 ++ f3.2.2 ++ f4.2.2
            let freed :=
              if r < 0 then
                att_free_field f1.1 ++ att_free_field f2.1
                  ++ att_free_field f3.1 ++ att_free_field f4.1
              else []
            some ⟨r, att, true, allocated, freed⟩

/-- The three states of the cross-boundary lock word used in the request
descriptor, per spinlock.h (Futexes Are Tricky, Mutex 2): UNLOCKED = 0,
LOCKED_NO_WAITERS = 1, LOCKED_WITH_WAITERS = 2. -/
inductive XLock where
  | unlocked
  | lockedNoWaiters
  | lockedWithWaiters
deriving DecidableEq

/-- Shared state of one exitless request between the enclave thread and the
RPC worker: the lock word and the result slot of the request descriptor, plus
the local progress of both sides (whether the worker has stored its result
and released the lock, whether the enclave thread's CAS from UNLOCKED has
succeeded, and the result value the enclave thread read, if any). -/
structure ReqState where
  lock : XLock
  result : Int
  workerStored : Bool
  workerReleased : Bool
  acquired : Bool
  readVal : Option Int
deriving DecidableEq

/-- State of the request descriptor right after sgx_exitless_ocall initializes
the lock and immediately acquires it (the enclave thread is the sole owner, so
this always succeeds): result still holds garbage g. -/
def reqInit (g : Int) : ReqState :=
  ⟨XLock.lockedNoWaiters, g, false, false, false, none⟩

/-- Interleaved small-step semantics of one enqueued request, for a worker
that computes result v.  The worker first stores v into the result slot, then
(program order, release on unlock) stores UNLOCKED into the lock.  The
enclave thread may promote the lock to LOCKED_WITH_WAITERS before a futex
wait (CAS LOCKED_NO_WAITERS to LOCKED_WITH_WAITERS), may acquire it by a CAS
that succeeds only when it observes UNLOCKED (to LOCKED_NO_WAITERS in the
spin phase, to LOCKED_WITH_WAITERS in the futex loop), and reads the result
slot only after its acquiring CAS succeeded.  Failed CAS attempts and futex
waits do not change the shared state and need no transition. -/
inductive ReqStep (v : Int) : ReqState → ReqState → Prop
  | workerStore (s : ReqState) (h : s.workerStored = false) :
      ReqStep v s { s with result := v, workerStored := true }
  | workerRelease (s : ReqState) (h1 : s.workerStored = true)
      (h2 : s.workerReleased = false) :
      ReqStep v s { s with lock := XLock.unlocked, workerReleased := true }
  | promote (s : ReqState) (h : s.acquired = false)
      (hl : s.lock = XLock.lockedNoWaiters) :
      ReqStep v s { s with lock := XLock.lockedWithWaiters }
  | spinAcquire (s : ReqState) (h : s.acquired = false)
      (hl : s.lock = XLock.unlocked) :
      ReqStep v s { s with lock := XLock.lockedNoWaiters, acquired := true }
  | waitAcquire (s : ReqState) (h : s.acquired = false)
      (hl : s.lock = XLock.unlocked) :
      ReqStep v s { s with lock := XLock.lockedWithWaiters, acquired := true }
  | readResult (s : ReqState) (h : s.acquired = true) (hr : s.readVal = none) :
      ReqStep v s { s with readVal := some s.result }

/-- States of the request reachable from the post-initialization state by any
interleaving of enclave-thread and worker steps. -/
inductive ReqReachable (v g : Int) : ReqState → Prop
  | init : ReqReachable v g (reqInit g)
  | step (s t : ReqState) (hs : ReqReachable v g s) (ht : ReqStep v s t) :
      ReqReachable v g t

/-- Untrusted stack at the start of an OCALL with no live allocations, used to
exhibit the behaviour of the thread wrappers (claim C1). -/
def uC1 : UStack := ⟨0, THREAD_STACK_SIZE, THREAD_STACK_SIZE⟩

/-- Enclave layout for the straddling-buffer runs (claim C2). -/
def envC2 : EnclaveRegion := ⟨10000000, 1000000⟩

/-- Host behaviour for the straddling-buffer runs (claim C2): the read
dispatch reports 5 bytes. -/
def hostC2 : HostIO :=
  { mmapRet := 0, mmapMem := 0, munmapRet := 0, readRet := 5, writeRet := 0,
    sendRet := 0, futexRet := 0, listenRet := 0, listenAddrlen := 0,
    sleepRet := 0, sleepRemaining := 0 }

/-- Untrusted stack for the straddling-buffer runs (claim C2), lying entirely
below the enclave. -/
def uC2 : UStack := ⟨4096, 2101248, 2101248⟩

/-- Enclave layout for the length-clamping runs (claim C3). -/
def envC3 : EnclaveRegion := ⟨10000000, 1000000⟩

/-- Host behaviour for the length-clamping runs (claim C3): listen succeeds
but reports an address length of 17 against a caller capacity of 16. -/
def hostC3 : HostIO :=
  { mmapRet := 0, mmapMem := 0, munmapRet := 0, readRet := 10, writeRet := 0,
    sendRet := 0, futexRet := 0, listenRet := 0, listenAddrlen := 17,
    sleepRet := 0, sleepRemaining := 0 }

/-- Untrusted stack for the length-clamping runs (claim C3). -/
def uC3 : UStack := ⟨4096, 2101248, 2101248⟩

/-- Untrusted stack for the fallback-equivalence witness (claim C5). -/
def uC5 : UStack := ⟨0, 4096, 4096⟩

/-- Enclave layout for the large-read runs (claim C7): a 10 MB enclave. -/
def envC7 : EnclaveRegion := ⟨10000000, 10000000⟩

/-- Host behaviour for the large-read runs (claim C7): mmap_untrusted returns
a host-heap pointer above the enclave and the read reports 1000 bytes. -/
def hostC7 : HostIO :=
  { mmapRet := 0, mmapMem := 20000000, munmapRet := 0, readRet := 1000,
    writeRet := 0, sendRet := 0, futexRet := 0, listenRet := 0,
    listenAddrlen := 0, sleepRet := 0, sleepRemaining := 0 }

/-- Untrusted stack for the large-read runs (claim C7). -/
def uC7 : UStack := ⟨4096, 2101248, 2101248⟩

/-- Attestation run in which the host returns all four blobs and every malloc
and copy succeeds (claim C8). -/
def attCfgOk : AttCfg :=
  { dispatchRet := 0, structCopyOk := true,
    quote := ⟨true, true, true⟩, ias_report := ⟨true, true, true⟩,
    ias_sig := ⟨true, true, true⟩, ias_certs := ⟨true, true, true⟩ }

/-- Attestation run in which every malloc succeeds but the copy of the IAS
signature fails, e.g. because the host-supplied blob pointer is bad
(claim C8). -/
def attCfgFail : AttCfg :=
  { dispatchRet := 0, structCopyOk := true,
    quote := ⟨true, true, true⟩, ias_report := ⟨true, true, true⟩,
    ias_sig := ⟨true, true, false⟩, ias_certs := ⟨true, true, true⟩ }

/-- Attestation run in which the host returns all four blobs but the enclave
malloc for the IAS-report copy fails (claim C8): the source then writes the
null terminator through the null malloc result. -/
def attCfgCrash : AttCfg :=
  { dispatchRet := 0, structCopyOk := true,
    quote := ⟨true, true, true⟩, ias_report := ⟨true, false, true⟩,
    ias_sig := ⟨true, true, true⟩, ias_certs := ⟨true, true, true⟩ }

/-- Caller's attestation struct before the call (claim C8): the whole-struct
copy has filled the four fields with host blob pointers. -/
def attBefore : sgx_attestation_t := ⟨PtrProv.host, PtrProv.host, PtrProv.host, PtrProv.host⟩

/-- Enclave layout for the EINVAL-rejection runs (claim C9). -/
def envC9 : EnclaveRegion := ⟨10000000, 1000000⟩

/-- Host behaviour for the EINVAL-rejection runs (claim C9); never consulted
because both calls reject before dispatching. -/
def hostC9 : HostIO :=
  { mmapRet := 0, mmapMem := 0, munmapRet := 0, readRet := 0, writeRet := 0,
    sendRet := 0, futexRet := 0, listenRet := 0, listenAddrlen := 0,
    sleepRet := 0, sleepRemaining := 0 }

/-- Untrusted stack for the EINVAL-rejection runs (claim C9). -/
def uC9 : UStack := ⟨4096, 2101248, 2101248⟩

/-- Host behaviour for the sleep write-back witness (claim C10): the host
interrupts the sleep and reports 7 remaining microseconds. -/
def hostC10 : HostIO :=
  { mmapRet := 0, mmapMem := 0, munmapRet := 0, readRet := 0, writeRet := 0,
    sendRet := 0, futexRet := 0, listenRet := 0, listenAddrlen := 0,
    sleepRet := -EINTR, sleepRemaining := 7 }

/-- Untrusted stack for the sleep write-back witness (claim C10). -/
def uC10 : UStack := ⟨0, 4096, 4096⟩

/-- Aligning down never increases an address. -/
theorem align_down_le (x a : Nat) : align_down x a ≤ x := by
  unfold align_down; omega

/-- Aligning down to a positive alignment loses fewer than a bytes. -/
theorem align_down_gt (x a : Nat) (h : 0 < a) : x < align_down x a + a := by
  have hm : x % a < a := Nat.mod_lt x h
  unfold align_down; omega

/-- A successful aligned allocation: the pointer and the new stack state. -/
theorem sgx_alloc_on_ustack_aligned_eq (u : UStack) (n a : Nat)
    (h1 : u.base + n ≤ u.cur) (h2 : u.base ≤ align_down (u.cur - n) a) :
    sgx_alloc_on_ustack_aligned u n a
      = (some (align_down (u.cur - n) a),
         { u with cur := align_down (u.cur - n) a }) := by
  unfold sgx_alloc_on_ustack_aligned
  rw [if_pos ⟨h1, h2⟩]

/-- A successful plain allocation: the pointer and the new stack state. -/
theorem sgx_alloc_on_ustack_eq (u : UStack) (n : Nat)
    (h1 : u.base + n ≤ u.cur) :
    sgx_alloc_on_ustack u n = (some (u.cur - n), { u with cur := u.cur - n }) := by
  unfold sgx_alloc_on_ustack
  rw [if_pos h1]

/-- A subrange of an untrusted stack that lies wholly outside the enclave is
itself entirely outside the enclave. -/
theorem ustack_range_outside (e : EnclaveRegion) (u : UStack) (p n : Nat)
    (hout : u.top ≤ e.start ∨ e.start + e.size ≤ u.base)
    (hb : u.base ≤ p) (hp : p + n ≤ u.top) :
    sgx_is_completely_outside_enclave e p n = true := by
  unfold sgx_is_completely_outside_enclave
  simp only [decide_eq_true_eq]
  omega

/-- The BMC copy fails when the destination is not entirely inside. -/
theorem sgx_copy_to_enclave_not_within (e : EnclaveRegion) (dst cap src n : Nat)
    (h : sgx_is_completely_within_enclave e dst cap = false) :
    sgx_copy_to_enclave e dst cap src n = 0 := by
  unfold sgx_copy_to_enclave
  rw [h]
  rfl

/-- The BMC copy fails when the host-reported length exceeds the capacity. -/
theorem sgx_copy_to_enclave_over (e : EnclaveRegion) (dst cap src n : Nat)
    (h : cap < n) : sgx_copy_to_enclave e dst cap src n = 0 := by
  unfold sgx_copy_to_enclave
  have : decide (n ≤ cap) = false := by simp; omega
  rw [this]
  simp

/-- The BMC copy moves exactly n bytes when the destination is entirely
inside, the source entirely outside, and n fits the capacity. -/
theorem sgx_copy_to_enclave_ok (e : EnclaveRegion) (dst cap src n : Nat)
    (h1 : sgx_is_completely_within_enclave e dst cap = true)
    (h2 : sgx_is_completely_outside_enclave e src n = true)
    (h3 : n ≤ cap) : sgx_copy_to_enclave e dst cap src n = n := by
  unfold sgx_copy_to_enclave
  rw [h1, h2]
  simp [h3]

/-- C9: ocall_munmap_untrusted returns -EINVAL without dispatching any OCALL
whenever the region is not entirely outside the enclave, and ocall_futex
returns -EINVAL without dispatching any OCALL whenever the futex word is not
entirely outside the enclave: both runs produce an empty host-interaction
trace and only reset the untrusted stack. -/
theorem munmap_futex_inside_einval (env env2 : EnclaveRegion) (h h2 : HostIO)
    (mem size fut : Nat) (op val tmo : Int) (u u2 : UStack)
    (hm : sgx_is_completely_outside_enclave env mem size = false)
    (hf : sgx_is_completely_outside_enclave env2 fut 4 = false) :
    ocall_munmap_untrusted env h mem size u
        = ⟨-EINVAL, (), sgx_reset_ustack u, []⟩
    ∧ ocall_futex env2 h2 fut op val tmo u2
        = ⟨-EINVAL, (), sgx_reset_ustack u2, []⟩ := by
  constructor
  · unfold ocall_munmap_untrusted
    rw [hm]
    rfl
  · unfold ocall_futex
    rw [hf]
    rfl

/-- C9 witness: a region straddling the enclave boundary and a futex word
inside the enclave are both rejected with -EINVAL and no host interaction. -/
theorem munmap_futex_inside_einval_witness :
    ocall_munmap_untrusted envC9 hostC9 10999000 2000 uC9
        = ⟨-EINVAL, (), sgx_reset_ustack uC9, []⟩
    ∧ ocall_futex envC9 hostC9 10500000 0 0 0 uC9
        = ⟨-EINVAL, (), sgx_reset_ustack uC9, []⟩ :=
  munmap_futex_inside_einval envC9 envC9 hostC9 hostC9 10999000 2000 10500000
    0 0 0 uC9 uC9 (by decide) (by decide)

/-- C10: for a non-null microsec pointer, ocall_sleep writes 0 through it
when it returns 0, writes the host-reported remaining time through it when it
returns -EINTR, and leaves it unchanged for any other return value. -/
theorem ocall_sleep_microsec_writeback (h : HostIO) (v : Nat) (u : UStack) :
    ((ocall_sleep h (some v) u).ret = 0 → (ocall_sleep h (some v) u).out = some 0)
    ∧ ((ocall_sleep h (some v) u).ret = -EINTR →
        (ocall_sleep h (some v) u).out = some h.sleepRemaining)
    ∧ ((ocall_sleep h (some v) u).ret ≠ 0 → (ocall_sleep h (some v) u).ret ≠ -EINTR →
        (ocall_sleep h (some v) u).out = some v) := by
  unfold ocall_sleep
  rcases halloc : sgx_alloc_on_ustack_aligned u sizeof_ms_sleep 8 with ⟨o, u1⟩
  cases o with
  | none =>
    refine ⟨?_, ?_, ?_⟩ <;> intros <;> simp_all [EPERM, EINTR]
  | some p =>
    by_cases h0 : h.sleepRet = 0
    · refine ⟨?_, ?_, ?_⟩ <;> intros <;> simp_all [EINTR]
    · by_cases hi : h.sleepRet = -EINTR
      · refine ⟨?_, ?_, ?_⟩ <;> intros <;> simp_all [EINTR]
      · refine ⟨?_, ?_, ?_⟩ <;> intros <;> simp_all [EINTR]

/-- C10 witness: a sleep interrupted by the host (-EINTR) writes the
host-reported remaining 7 microseconds back through the pointer. -/
theorem ocall_sleep_microsec_writeback_witness :
    (ocall_sleep hostC10 (some 5) uC10).out = some hostC10.sleepRemaining :=
  (ocall_sleep_microsec_writeback hostC10 5 uC10).2.1 (by decide)

/-- The while(true) loop of ocall_exit is still looping after any number of
iterations, whatever values the host returns from the exit OCALLs. -/
theorem ocall_exit_loop_looping (hostRets : Nat → Int) (n : Nat) :
    ocall_exit_loop hostRets n = ExitPhase.looping n := by
  induction n with
  | zero => rfl
  | succ k ih =>
    unfold ocall_exit_loop
    rw [ih]

/-- C6: ocall_exit never returns to its caller: for every pair of arguments,
every untrusted-stack state and every sequence of host answers to the exit
OCALL, after any number of loop iterations the call is either still looping
or has crashed on the unchecked null allocation; it is never in the returned
state. -/
theorem ocall_exit_never_returns (hostRets : Nat → Int) (ec eg : Int)
    (u : UStack) (fuel : Nat) :
    ocall_exit hostRets ec eg u fuel = none
    ∨ ocall_exit hostRets ec eg u fuel = some (ExitPhase.looping fuel) := by
  unfold ocall_exit
  cases halloc : (sgx_alloc_on_ustack_aligned u sizeof_ms_exit 8).1 with
  | none => exact Or.inl rfl
  | some p =>
    right
    rw [ocall_exit_loop_looping]

/-- C5: whenever sgx_exitless_ocall completes (on the no-queue direct path,
the full-queue fallback path, or the exitless fast or slow path with benign
futex results), its return value is the host's result for this code and
argument struct; in particular the enqueue-failure fallback through the
direct enclave-exit primitive returns the same result as the exitless path
would have for the same code and arguments. -/
theorem exitless_fallback_same_result (code : Nat) (hostRes r : Int)
    (m : RpcMode) (u u2 : UStack) (ev : List Event)
    (hok : futexRetsOk m = true)
    (hrun : sgx_exitless_ocall code hostRes m u = some (r, u2, ev)) :
    r = hostRes := by
  cases m with
  | noQueue =>
    unfold sgx_exitless_ocall at hrun
    simp only [Option.some.injEq, Prod.mk.injEq] at hrun
    exact hrun.1.symm
  | queueFull =>
    unfold sgx_exitless_ocall at hrun
    rcases halloc : sgx_alloc_on_ustack_aligned u sizeof_rpc_request 4 with ⟨o, u1⟩
    rw [halloc] at hrun
    cases o with
    | none => simp at hrun
    | some p =>
      simp only [Option.some.injEq, Prod.mk.injEq] at hrun
      exact hrun.1.symm
  | fast =>
    unfold sgx_exitless_ocall at hrun
    rcases halloc : sgx_alloc_on_ustack_aligned u sizeof_rpc_request 4 with ⟨o, u1⟩
    rw [halloc] at hrun
    cases o with
    | none => simp at hrun
    | some p =>
      simp only [Option.some.injEq, Prod.mk.injEq] at hrun
      exact hrun.1.symm
  | slow frets =>
    unfold sgx_exitless_ocall at hrun
    rcases halloc : sgx_alloc_on_ustack_aligned u sizeof_rpc_request 4 with ⟨o, u1⟩
    rw [halloc] at hrun
    cases o with
    | none => simp at hrun
    | some p =>
      simp only [futexRetsOk] at hok
      rcases halloc2 : sgx_alloc_on_ustack_aligned u1 sizeof_ms_futex 8 with ⟨o2, u3⟩
      simp only [halloc2] at hrun
      cases o2 with
      | none => simp at hrun
      | some p2 =>
        simp [hok] at hrun
        exact hrun.1.symm

/-- C5 witness: with the queue full, the direct-exit fallback of a close
request returns exactly the host's result 7. -/
theorem exitless_fallback_same_result_witness : (7 : Int) = 7 :=
  exitless_fallback_same_result OCALL_CLOSE 7 7 RpcMode.queueFull uC5
    ⟨0, 4096, 4072⟩ [Event.call OCALL_CLOSE 0] (by decide) (by decide)

/-- C1: evaluation of the failing input of the untrusted-stack-hygiene claim.
On the exitless fast path, ocall_resume_thread and ocall_clone_thread return
with the untrusted stack pointer lowered by the request-descriptor
allocation (THREAD_STACK_SIZE - 24 instead of the starting THREAD_STACK_SIZE):
neither wrapper calls sgx_reset_ustack, unlike ocall_close, which restores
the pointer exactly on the same path. -/
theorem exitless_thread_wrappers_leak_ustack :
    ocall_resume_thread 0 RpcMode.fast 555 uC1
      = some (0, ⟨0, THREAD_STACK_SIZE, THREAD_STACK_SIZE - 24⟩,
              [Event.call OCALL_RESUME_THREAD 0])
    ∧ ocall_clone_thread 0 RpcMode.fast uC1
      = some (0, ⟨0, THREAD_STACK_SIZE, THREAD_STACK_SIZE - 24⟩,
              [Event.call OCALL_CLONE_THREAD 0])
    ∧ uC1.cur = THREAD_STACK_SIZE
    ∧ THREAD_STACK_SIZE - 24 ≠ THREAD_STACK_SIZE
    ∧ ocall_close 0 RpcMode.fast 3 uC1 = some (0, uC1, [Event.call OCALL_CLOSE 0]) := by
  decide

/-- Characterization of an ocall_read whose count fits the untrusted stack:
the data buffer b is carved out of the untrusted stack below the entry
pointer, exactly one OCALL_READ is dispatched, a positive host result is
copied back through the BMC (with -EPERM if the BMC rejects), and the
untrusted stack ends reset. -/
theorem ocall_read_small_run (env : EnclaveRegion) (h : HostIO) (fd : Int)
    (buf count : Nat) (u : UStack)
    (hsmall : count ≤ MAX_UNTRUSTED_STACK_BUF)
    (hwf : u.base + 64 + count ≤ u.cur) :
    ∃ b, u.base ≤ b ∧ b + count ≤ u.cur ∧
      ocall_read env h fd buf count u =
        (if 0 < h.readRet then
          (if sgx_copy_to_enclave env buf count b h.readRet.toNat = 0 then
            ⟨-EPERM, (), sgx_reset_ustack u,
              [Event.call OCALL_READ b, Event.copyIn 0]⟩
          else
            ⟨h.readRet, (), sgx_reset_ustack u,
              [Event.call OCALL_READ b,
               Event.copyIn (sgx_copy_to_enclave env buf count b h.readRet.toNat)]⟩)
         else ⟨h.readRet, (), sgx_reset_ustack u, [Event.call OCALL_READ b]⟩) := by
  have hmax : ¬ MAX_UNTRUSTED_STACK_BUF < count := by omega
  have h1 : u.base + sizeof_ms_read ≤ u.cur := by
    unfold sizeof_ms_read
    omega
  have had : align_down (u.cur - sizeof_ms_read) 8 ≤ u.cur - sizeof_ms_read :=
    align_down_le _ _
  have hag : u.cur - sizeof_ms_read < align_down (u.cur - sizeof_ms_read) 8 + 8 :=
    align_down_gt _ _ (by omega)
  have h2 : u.base ≤ align_down (u.cur - sizeof_ms_read) 8 := by
    unfold sizeof_ms_read at *
    omega
  have h3 : u.base + count ≤ align_down (u.cur - sizeof_ms_read) 8 := by
    unfold sizeof_ms_read at *
    omega
  refine ⟨align_down (u.cur - sizeof_ms_read) 8 - count, by omega,
    by unfold sizeof_ms_read at *; omega, ?_⟩
  unfold ocall_read
  rw [if_neg hmax]
  simp only [ocall_read_body, sgx_alloc_on_ustack_aligned_eq u sizeof_ms_read 8 h1 h2,
    sgx_alloc_on_ustack_eq { u with cur := align_down (u.cur - sizeof_ms_read) 8 } count h3]
  by_cases hr : 0 < h.readRet
  · by_cases hc : sgx_copy_to_enclave env buf count
        (align_down (u.cur - sizeof_ms_read) 8 - count) h.readRet.toNat = 0
    · simp [ocall_read_out, hr, hc, sgx_reset_ustack]
    · simp [ocall_read_out, hr, hc, sgx_reset_ustack]
  · simp [ocall_read_out, hr, sgx_reset_ustack]

/-- C2 counterexample: for a buffer that straddles the enclave boundary (it
is neither entirely outside nor entirely within), ocall_read nevertheless
dispatches OCALL_READ to the host — the trace contains the dispatch — and
only afterwards fails the copy-in, returning -EPERM; this refutes the claim
that no host call occurs for a straddling ocall_read output buffer. -/
theorem ocall_read_straddling_dispatches :
    sgx_is_completely_outside_enclave envC2 10999000 2000 = false
    ∧ sgx_is_completely_within_enclave envC2 10999000 2000 = false
    ∧ (ocall_read envC2 hostC2 3 10999000 2000 uC2).events
        = [Event.call OCALL_READ 2099216, Event.copyIn 0]
    ∧ (ocall_read envC2 hostC2 3 10999000 2000 uC2).ret = -EPERM := by
  decide

/-- C2 (amended): ocall_write and ocall_send return -EPERM before allocating
or dispatching anything when the supplied buffer straddles the enclave
boundary (empty trace, untouched untrusted stack); ocall_read with a
straddling output buffer does dispatch the host read into its bounce buffer,
but no bytes are ever copied into the straddling enclave buffer (every copy
event in its trace copies 0 bytes) and the call returns -EPERM whenever the
host reports a positive number of bytes read. -/
theorem ocall_straddling_buffer_rejected (env : EnclaveRegion) (h : HostIO)
    (fd sockfd : Int) (buf count : Nat) (addr : Option Nat) (addrlen : Nat)
    (control : Option Nat) (controllen : Nat) (u : UStack)
    (hnout : sgx_is_completely_outside_enclave env buf count = false)
    (hnin : sgx_is_completely_within_enclave env buf count = false) :
    ocall_write env h fd buf count u = ⟨-EPERM, (), u, []⟩
    ∧ ocall_send env h sockfd buf count addr addrlen control controllen u
        = ⟨-EPERM, (), u, []⟩
    ∧ (count ≤ MAX_UNTRUSTED_STACK_BUF → u.base + 64 + count ≤ u.cur →
        0 < h.readRet →
        (ocall_read env h fd buf count u).ret = -EPERM
        ∧ ∀ n, Event.copyIn n ∈ (ocall_read env h fd buf count u).events → n = 0) := by
  refine ⟨?_, ?_, ?_⟩
  · unfold ocall_write
    rw [hnout, hnin]
    simp
  · unfold ocall_send
    rw [hnout, hnin]
    simp
  · intro hsm hwf hr
    obtain ⟨b, hb1, hb2, heq⟩ := ocall_read_small_run env h fd buf count u hsm hwf
    have hc := sgx_copy_to_enclave_not_within env buf count b h.readRet.toNat hnin
    rw [heq, if_pos hr, hc, if_pos rfl]
    refine ⟨rfl, ?_⟩
    intro n hn
    simp at hn
    exact hn

/-- C2 witness: a concrete straddling buffer is rejected by ocall_write and
ocall_send with -EPERM, an empty trace and an untouched untrusted stack, and
makes ocall_read return -EPERM. -/
theorem ocall_straddling_buffer_rejected_witness :
    ocall_write envC2 hostC2 3 10999000 2000 uC2 = ⟨-EPERM, (), uC2, []⟩
    ∧ ocall_send envC2 hostC2 4 10999000 2000 none 0 none 0 uC2
        = ⟨-EPERM, (), uC2, []⟩
    ∧ (ocall_read envC2 hostC2 3 10999000 2000 uC2).ret = -EPERM := by
  have h := ocall_straddling_buffer_rejected envC2 hostC2 3 4 10999000 2000
    none 0 none 0 uC2 (by decide) (by decide)
  exact ⟨h.1, h.2.1, (h.2.2 (by decide) (by decide) (by decide)).1⟩

/-- Characterization of ocall_listen with a present address buffer of
positive capacity len: the untrusted copy b of the address is carved from the
untrusted stack, one OCALL_LISTEN is dispatched, and on a non-negative result
the host-reported address length goes through the BMC copy bounded by len
(with -EPERM if the BMC rejects); the value stored back through the addrlen
pointer is exactly the copied byte count. -/
theorem ocall_listen_run (env : EnclaveRegion) (h : HostIO) (d t pr : Int)
    (ap len : Nat) (u : UStack)
    (hlen : 0 < len) (hwf : u.base + 64 + len ≤ u.cur) :
    ∃ b, u.base ≤ b ∧ b + len ≤ u.cur ∧
      ocall_listen env h d t pr (some ap) (some len) u =
        (if 0 ≤ h.listenRet then
          (if sgx_copy_to_enclave env ap len b h.listenAddrlen = 0 then
            ⟨-EPERM, some len, sgx_reset_ustack u,
              [Event.call OCALL_LISTEN b, Event.copyIn 0]⟩
          else
            ⟨h.listenRet, some (sgx_copy_to_enclave env ap len b h.listenAddrlen),
              sgx_reset_ustack u,
              [Event.call OCALL_LISTEN b,
               Event.copyIn (sgx_copy_to_enclave env ap len b h.listenAddrlen)]⟩)
         else ⟨h.listenRet, some len, sgx_reset_ustack u,
                [Event.call OCALL_LISTEN b]⟩) := by
  have h1 : u.base + sizeof_ms_listen ≤ u.cur := by
    unfold sizeof_ms_listen
    omega
  have had := align_down_le (u.cur - sizeof_ms_listen) 8
  have hag := align_down_gt (u.cur - sizeof_ms_listen) 8 (by omega)
  have h2 : u.base ≤ align_down (u.cur - sizeof_ms_listen) 8 := by
    unfold sizeof_ms_listen at *
    omega
  have h3 : u.base + len ≤ align_down (u.cur - sizeof_ms_listen) 8 := by
    unfold sizeof_ms_listen at *
    omega
  refine ⟨align_down (u.cur - sizeof_ms_listen) 8 - len, by omega,
    by unfold sizeof_ms_listen at *; omega, ?_⟩
  unfold ocall_listen
  simp only [sgx_alloc_on_ustack_aligned_eq u sizeof_ms_listen 8 h1 h2]
  simp only [sgx_copy_to_ustack,
    sgx_alloc_on_ustack_eq { u with cur := align_down (u.cur - sizeof_ms_listen) 8 } len h3]
  by_cases hret : 0 ≤ h.listenRet
  · by_cases hc : sgx_copy_to_enclave env ap len
        (align_down (u.cur - sizeof_ms_listen) 8 - len) h.listenAddrlen = 0
    · simp [hret, hc, hlen.ne', sgx_reset_ustack]
    · simp [hret, hc, hlen.ne', sgx_reset_ustack]
  · simp [hret, hlen.ne', sgx_reset_ustack]

/-- The BMC copy never moves more bytes than the destination capacity. -/
theorem sgx_copy_to_enclave_le (e : EnclaveRegion) (dst cap src n : Nat) :
    sgx_copy_to_enclave e dst cap src n ≤ cap := by
  unfold sgx_copy_to_enclave
  split_ifs with hcond
  · simp at hcond
    omega
  · exact Nat.zero_le _

/-- C3 counterexample: when the host reports an address length (17) larger
than the caller-provided capacity (16), ocall_listen does not clamp the
length: it fails with -EPERM and leaves the caller's addrlen unchanged; this
refutes the claim that the returned address length is clamped to the capacity
rather than causing a failure. -/
theorem ocall_listen_overlong_addr_fails :
    16 < hostC3.listenAddrlen
    ∧ 0 ≤ hostC3.listenRet
    ∧ (ocall_listen envC3 hostC3 1 1 6 (some 10000064) (some 16) uC3).ret = -EPERM
    ∧ (ocall_listen envC3 hostC3 1 1 6 (some 10000064) (some 16) uC3).out = some 16 := by
  decide

/-- C3 (amended): variable-length outputs are size-bounded but not clamped.
Every copy into the enclave moves at most the caller capacity; when the
host-reported length fits the capacity the call succeeds and returns exactly
the host-reported length (min of the two); when the host reports a length
exceeding the capacity (or a zero length for listen), the BMC rejects the
copy and the call fails with -EPERM instead of clamping.  Shown for
ocall_listen (address length) and ocall_read (data bytes). -/
theorem ocall_output_length_clamp (env : EnclaveRegion) (h : HostIO)
    (d t pr fd : Int) (ap len buf count : Nat) (u : UStack)
    (hlen : 0 < len) (hwfl : u.base + 64 + len ≤ u.cur)
    (hin : sgx_is_completely_within_enclave env ap len = true)
    (hinb : sgx_is_completely_within_enclave env buf count = true)
    (hsm : count ≤ MAX_UNTRUSTED_STACK_BUF)
    (hwfb : u.base + 64 + count ≤ u.cur)
    (hcur : u.cur ≤ u.top)
    (hout : u.top ≤ env.start ∨ env.start + env.size ≤ u.base) :
    ((h.listenAddrlen ≤ len → 0 < h.listenAddrlen → 0 ≤ h.listenRet →
        (ocall_listen env h d t pr (some ap) (some len) u).ret = h.listenRet
        ∧ (ocall_listen env h d t pr (some ap) (some len) u).out
            = some h.listenAddrlen)
      ∧ (len < h.listenAddrlen → 0 ≤ h.listenRet →
        (ocall_listen env h d t pr (some ap) (some len) u).ret = -EPERM
        ∧ (ocall_listen env h d t pr (some ap) (some len) u).out = some len)
      ∧ (∀ n, Event.copyIn n ∈
            (ocall_listen env h d t pr (some ap) (some len) u).events → n ≤ len))
    ∧ ((0 < h.readRet → h.readRet.toNat ≤ count →
        (ocall_read env h fd buf count u).ret = h.readRet
        ∧ Event.copyIn h.readRet.toNat ∈ (ocall_read env h fd buf count u).events)
      ∧ (0 < h.readRet → count < h.readRet.toNat →
        (ocall_read env h fd buf count u).ret = -EPERM)
      ∧ (∀ n, Event.copyIn n ∈ (ocall_read env h fd buf count u).events →
            n ≤ count)) := by
  obtain ⟨b, hb1, hb2, heq⟩ := ocall_listen_run env h d t pr ap len u hlen hwfl
  obtain ⟨c, hc1, hc2, heqr⟩ := ocall_read_small_run env h fd buf count u hsm hwfb
  have hle := sgx_copy_to_enclave_le env ap len b h.listenAddrlen
  have hler := sgx_copy_to_enclave_le env buf count c h.readRet.toNat
  refine ⟨⟨?_, ?_, ?_⟩, ?_, ?_, ?_⟩
  · intro hfit hpos hret
    have hob : sgx_is_completely_outside_enclave env b h.listenAddrlen = true :=
      ustack_range_outside env u b h.listenAddrlen hout hb1 (by omega)
    have hco := sgx_copy_to_enclave_ok env ap len b h.listenAddrlen hin hob hfit
    rw [heq, if_pos hret, hco, if_neg (by omega)]
    exact ⟨rfl, rfl⟩
  · intro hover hret
    have hco := sgx_copy_to_enclave_over env ap len b h.listenAddrlen hover
    rw [heq, if_pos hret, hco, if_pos rfl]
    exact ⟨rfl, rfl⟩
  · intro n hn
    rw [heq] at hn
    split_ifs at hn with h1 h2
    · simp at hn
      omega
    · simp at hn
      rw [hn]
      exact hle
    · simp at hn
  · intro hr hfit
    have hob : sgx_is_completely_outside_enclave env c h.readRet.toNat = true :=
      ustack_range_outside env u c h.readRet.toNat hout hc1 (by omega)
    have hco := sgx_copy_to_enclave_ok env buf count c h.readRet.toNat hinb hob hfit
    rw [heqr, if_pos hr, hco, if_neg (by omega)]
    exact ⟨rfl, by simp⟩
  · intro hr hover
    have hco := sgx_copy_to_enclave_over env buf count c h.readRet.toNat hover
    rw [heqr, if_pos hr, hco, if_pos rfl]
  · intro n hn
    rw [heqr] at hn
    split_ifs at hn with h1 h2
    · simp at hn
      omega
    · simp at hn
      rw [hn]
      exact hler
    · simp at hn

/-- C3 witness: with a 16-byte capacity and a host-reported length of 17,
ocall_listen fails with -EPERM and leaves the capacity value in place; with a
100-byte enclave buffer and a host read result of 10, ocall_read returns 10.
-/
theorem ocall_output_length_clamp_witness :
    (ocall_listen envC3 hostC3 1 1 6 (some 10000064) (some 16) uC3).ret = -EPERM
    ∧ (ocall_read envC3 hostC3 3 10000100 100 uC3).ret = hostC3.readRet := by
  have h := ocall_output_length_clamp envC3 hostC3 1 1 6 3 10000064 16 10000100
    100 uC3 (by decide) (by decide) (by decide) (by decide) (by decide)
    (by decide) (by decide) (by decide)
  exact ⟨(h.1.2.1 (by decide) (by decide)).1, (h.2.1 (by decide) (by decide)).1⟩

/-- Characterization of an ocall_read whose count exceeds
MAX_UNTRUSTED_STACK_BUF (with a successful host mmap of a region entirely
outside the enclave): the bulk buffer is the host-heap pointer returned by
ocall_mmap_untrusted, it is the buffer passed to OCALL_READ, and it is
unmapped by ocall_munmap_untrusted at the end of every exit path. -/
theorem ocall_read_large_run (env : EnclaveRegion) (h : HostIO) (fd : Int)
    (buf count : Nat) (u : UStack)
    (hbig : MAX_UNTRUSTED_STACK_BUF < count)
    (hm0 : h.mmapRet = 0)
    (hob : sgx_is_completely_outside_enclave env h.mmapMem (ALLOC_ALIGNUP count) = true)
    (hwf : u.base + 64 ≤ u.cur) (htop : u.base + 64 ≤ u.top) :
    ocall_read env h fd buf count u =
      (if 0 < h.readRet then
        (if sgx_copy_to_enclave env buf count h.mmapMem h.readRet.toNat = 0 then
          ⟨-EPERM, (), sgx_reset_ustack u,
            [Event.call OCALL_MMAP_UNTRUSTED (ALLOC_ALIGNUP count),
             Event.call OCALL_READ h.mmapMem, Event.copyIn 0,
             Event.call OCALL_MUNMAP_UNTRUSTED h.mmapMem]⟩
        else
          ⟨h.readRet, (), sgx_reset_ustack u,
            [Event.call OCALL_MMAP_UNTRUSTED (ALLOC_ALIGNUP count),
             Event.call OCALL_READ h.mmapMem,
             Event.copyIn (sgx_copy_to_enclave env buf count h.mmapMem h.readRet.toNat),
             Event.call OCALL_MUNMAP_UNTRUSTED h.mmapMem]⟩)
       else
        ⟨h.readRet, (), sgx_reset_ustack u,
          [Event.call OCALL_MMAP_UNTRUSTED (ALLOC_ALIGNUP count),
           Event.call OCALL_READ h.mmapMem,
           Event.call OCALL_MUNMAP_UNTRUSTED h.mmapMem]⟩) := by
  have hmm : ocall_mmap_untrusted env h (-1) 0 (ALLOC_ALIGNUP count) 3 u
      = ⟨0, some h.mmapMem, sgx_reset_ustack u,
         [Event.call OCALL_MMAP_UNTRUSTED (ALLOC_ALIGNUP count)]⟩ := by
    have h1 : u.base + sizeof_ms_mmap ≤ u.cur := by
      unfold sizeof_ms_mmap
      omega
    have had := align_down_le (u.cur - sizeof_ms_mmap) 8
    have hag := align_down_gt (u.cur - sizeof_ms_mmap) 8 (by omega)
    have h2 : u.base ≤ align_down (u.cur - sizeof_ms_mmap) 8 := by
      unfold sizeof_ms_mmap at *
      omega
    simp [ocall_mmap_untrusted,
      sgx_alloc_on_ustack_aligned_eq u sizeof_ms_mmap 8 h1 h2, hm0,
      sgx_copy_ptr_to_enclave, hob, sgx_reset_ustack]
  have hmun : ocall_munmap_untrusted env h h.mmapMem (ALLOC_ALIGNUP count)
      (⟨u.base, u.top, u.top⟩ : UStack)
      = ⟨h.munmapRet, (), (⟨u.base, u.top, u.top⟩ : UStack),
         [Event.call OCALL_MUNMAP_UNTRUSTED h.mmapMem]⟩ := by
    have had2 := align_down_le (u.top - sizeof_ms_munmap) 8
    have hag2 := align_down_gt (u.top - sizeof_ms_munmap) 8 (by omega)
    have h5 : (⟨u.base, u.top, u.top⟩ : UStack).base + sizeof_ms_munmap
        ≤ (⟨u.base, u.top, u.top⟩ : UStack).cur := by
      show u.base + sizeof_ms_munmap ≤ u.top
      unfold sizeof_ms_munmap
      omega
    have h6 : (⟨u.base, u.top, u.top⟩ : UStack).base
        ≤ align_down ((⟨u.base, u.top, u.top⟩ : UStack).cur - sizeof_ms_munmap) 8 := by
      show u.base ≤ align_down (u.top - sizeof_ms_munmap) 8
      unfold sizeof_ms_munmap at *
      omega
    simp [ocall_munmap_untrusted, hob,
      sgx_alloc_on_ustack_aligned_eq _ sizeof_ms_munmap 8 h5 h6, sgx_reset_ustack]
  have h3 : (sgx_reset_ustack u).base + sizeof_ms_read ≤ (sgx_reset_ustack u).cur := by
    show u.base + sizeof_ms_read ≤ u.top
    unfold sizeof_ms_read
    omega
  have had3 := align_down_le (u.top - sizeof_ms_read) 8
  have hag3 := align_down_gt (u.top - sizeof_ms_read) 8 (by omega)
  have h4 : (sgx_reset_ustack u).base
      ≤ align_down ((sgx_reset_ustack u).cur - sizeof_ms_read) 8 := by
    show u.base ≤ align_down (u.top - sizeof_ms_read) 8
    unfold sizeof_ms_read at *
    omega
  unfold ocall_read
  rw [if_pos hbig, hmm]
  simp only [IS_ERR]
  norm_num
  simp only [ocall_read_body,
    sgx_alloc_on_ustack_aligned_eq (sgx_reset_ustack u) sizeof_ms_read 8 h3 h4]
  by_cases hr : 0 < h.readRet
  · by_cases hcp : sgx_copy_to_enclave env buf count h.mmapMem h.readRet.toNat = 0
    · simp [ocall_read_out, hr, hcp, sgx_reset_ustack, hmun]
    · simp [ocall_read_out, hr, hcp, sgx_reset_ustack, hmun]
  · simp [ocall_read_out, hr, sgx_reset_ustack, hmun]

/-- C7: for a count above MAX_UNTRUSTED_STACK_BUF (512 KiB), ocall_read
obtains the bulk buffer from the host heap: the trace opens with the
OCALL_MMAP_UNTRUSTED dispatch, the OCALL_READ dispatch carries exactly the
mmapped host pointer, and every exit path ends with the
OCALL_MUNMAP_UNTRUSTED dispatch for that pointer (with only enclave-copy
events in between).  For a count at most the limit, the data buffer passed
to OCALL_READ is carved from the untrusted stack below the entry pointer and
no mmap or munmap dispatch occurs. -/
theorem ocall_read_large_uses_untrusted_heap (env : EnclaveRegion) (h : HostIO)
    (fd : Int) (buf count : Nat) (u : UStack)
    (hwf : u.base + 64 ≤ u.cur) (htop : u.base + 64 ≤ u.top) :
    (MAX_UNTRUSTED_STACK_BUF < count → h.mmapRet = 0 →
      sgx_is_completely_outside_enclave env h.mmapMem (ALLOC_ALIGNUP count) = true →
      ∃ mid, (ocall_read env h fd buf count u).events
          = Event.call OCALL_MMAP_UNTRUSTED (ALLOC_ALIGNUP count)
            :: Event.call OCALL_READ h.mmapMem
            :: (mid ++ [Event.call OCALL_MUNMAP_UNTRUSTED h.mmapMem])
        ∧ ∀ e ∈ mid, ∃ n, e = Event.copyIn n)
    ∧ (count ≤ MAX_UNTRUSTED_STACK_BUF → u.base + 64 + count ≤ u.cur →
      ∃ b rest, u.base ≤ b ∧ b + count ≤ u.cur
        ∧ (ocall_read env h fd buf count u).events = Event.call OCALL_READ b :: rest
        ∧ ∀ e ∈ rest, ∃ n, e = Event.copyIn n) := by
  constructor
  · intro hbig hm0 hob
    rw [ocall_read_large_run env h fd buf count u hbig hm0 hob hwf htop]
    by_cases hr : 0 < h.readRet
    · by_cases hcp : sgx_copy_to_enclave env buf count h.mmapMem h.readRet.toNat = 0
      · refine ⟨[Event.copyIn 0], ?_, ?_⟩
        · simp [hr, hcp]
        · simp
      · refine ⟨[Event.copyIn
            (sgx_copy_to_enclave env buf count h.mmapMem h.readRet.toNat)], ?_, ?_⟩
        · simp [hr, hcp]
        · simp
    · refine ⟨[], ?_, ?_⟩
      · simp [hr]
      · simp
  · intro hsm hwfb
    obtain ⟨b, hb1, hb2, heq⟩ := ocall_read_small_run env h fd buf count u hsm hwfb
    rw [heq]
    by_cases hr : 0 < h.readRet
    · by_cases hcp : sgx_copy_to_enclave env buf count b h.readRet.toNat = 0
      · exact ⟨b, [Event.copyIn 0], hb1, hb2, by simp [hr, hcp], by simp⟩
      · exact ⟨b, [Event.copyIn (sgx_copy_to_enclave env buf count b h.readRet.toNat)],
          hb1, hb2, by simp [hr, hcp], by simp⟩
    · exact ⟨b, [], hb1, hb2, by simp [hr], by simp⟩

/-- C7 witness: a 4 MB read goes through the host heap (mmap before the read
dispatch, munmap at the end), while a 100-byte read on the same
configuration keeps its buffer on the untrusted stack with no mmap or
munmap. -/
theorem ocall_read_large_uses_untrusted_heap_witness :
    (∃ mid, (ocall_read envC7 hostC7 3 10000064 4000000 uC7).events
        = Event.call OCALL_MMAP_UNTRUSTED (ALLOC_ALIGNUP 4000000)
          :: Event.call OCALL_READ hostC7.mmapMem
          :: (mid ++ [Event.call OCALL_MUNMAP_UNTRUSTED hostC7.mmapMem])
      ∧ ∀ e ∈ mid, ∃ n, e = Event.copyIn n)
    ∧ (∃ b rest, uC7.base ≤ b ∧ b + 100 ≤ uC7.cur
      ∧ (ocall_read envC7 hostC7 3 10000064 100 uC7).events
          = Event.call OCALL_READ b :: rest
      ∧ ∀ e ∈ rest, ∃ n, e = Event.copyIn n) := by
  have h1 := ocall_read_large_uses_untrusted_heap envC7 hostC7 3 10000064
    4000000 uC7 (by decide) (by decide)
  have h2 := ocall_read_large_uses_untrusted_heap envC7 hostC7 3 10000064
    100 uC7 (by decide) (by decide)
  exact ⟨h1.1 (by decide) (by decide) (by decide), h2.2 (by decide) (by decide)⟩

/-- C8: evaluation of the attestation claim on the code.  When the host
returns all four blobs and the enclave malloc for the IAS-report copy fails,
the copy fails but the call neither returns -EACCES nor frees the enclave
buffers: the unconditional null-terminator write crashes the run (none).  In
contrast, a copy failure with all mallocs succeeding is handled as the claim
says (-EACCES returned, the freed enclave buffers exactly the allocated
ones), and after a fully successful run no field is a host pointer, every
host region is unmapped and nothing needs freeing. -/
theorem get_attestation_malloc_failure_crash :
    attCfgCrash.ias_report.present = true
    ∧ attCfgCrash.ias_report.mallocOk = false
    ∧ ocall_get_attestation attCfgCrash attBefore = none
    ∧ ocall_get_attestation attCfgFail attBefore
        = some ⟨-EACCES,
            ⟨PtrProv.encl 0, PtrProv.encl 1, PtrProv.encl 2, PtrProv.encl 3⟩,
            true, [0, 1, 2, 3], [0, 1, 2, 3]⟩
    ∧ ocall_get_attestation attCfgOk attBefore
        = some ⟨0,
            ⟨PtrProv.encl 0, PtrProv.encl 1, PtrProv.encl 2, PtrProv.encl 3⟩,
            true, [0, 1, 2, 3], []⟩ := by
  decide

/-- Inductive invariant of the exitless request: the lock can only be
UNLOCKED after the worker stored its result; the enclave thread can only hold
the lock acquired after observing UNLOCKED, hence after the store; once
stored, the result slot holds the worker's value; and any value the enclave
thread read is the worker's value. -/
theorem reqReachable_invariant (v g : Int) (s : ReqState)
    (h : ReqReachable v g s) :
    (s.lock = XLock.unlocked → s.workerStored = true)
    ∧ (s.acquired = true → s.workerStored = true)
    ∧ (s.workerStored = true → s.result = v)
    ∧ (∀ r, s.readVal = some r → r = v) := by
  induction h with
  | init =>
    exact ⟨fun hx => absurd hx (by simp [reqInit]), fun hx => absurd hx (by simp [reqInit]),
      fun hx => absurd hx (by simp [reqInit]), fun r hx => absurd hx (by simp [reqInit])⟩
  | step s t hs ht ih =>
    obtain ⟨ih1, ih2, ih3, ih4⟩ := ih
    cases ht with
    | workerStore h1 =>
      exact ⟨fun _ => rfl, fun _ => rfl, fun _ => rfl, ih4⟩
    | workerRelease h1 h2 =>
      exact ⟨fun _ => h1, fun ha => ih2 ha, ih3, ih4⟩
    | promote h1 hl =>
      refine ⟨?_, ih2, ih3, ih4⟩
      intro habs
      exact absurd habs (by simp)
    | spinAcquire h1 hl =>
      refine ⟨?_, ?_, ih3, ih4⟩
      · intro habs
        exact absurd habs (by simp)
      · intro _
        exact ih1 hl
    | waitAcquire h1 hl =>
      refine ⟨?_, ?_, ih3, ih4⟩
      · intro habs
        exact absurd habs (by simp)
      · intro _
        exact ih1 hl
    | readResult h1 hr =>
      refine ⟨ih1, ih2, ih3, ?_⟩
      intro r hread
      simp at hread
      rw [← hread]
      exact ih3 (ih2 h1)

/-- C4: in every interleaving of the enclave thread and the RPC worker on one
exitless request (every state reachable from the initialized request), any
result value the enclave thread reads after its acquiring CAS observed
UNLOCKED is exactly the value the worker stored before unlocking. -/
theorem xbl_unlock_result_visibility (v g : Int) (s : ReqState)
    (h : ReqReachable v g s) : ∀ r, s.readVal = some r → r = v :=
  (reqReachable_invariant v g s h).2.2.2

/-- C4 witness: along the interleaving store, unlock, spin-acquire, read with
worker value 7 and initial garbage 0, the value read is 7. -/
theorem xbl_unlock_result_visibility_witness : (7 : Int) = 7 := by
  have h0 : ReqReachable 7 0 (reqInit 0) := ReqReachable.init
  have h1 : ReqReachable 7 0
      ⟨XLock.lockedNoWaiters, 7, true, false, false, none⟩ :=
    ReqReachable.step _ _ h0 (ReqStep.workerStore _ rfl)
  have h2 : ReqReachable 7 0 ⟨XLock.unlocked, 7, true, true, false, none⟩ :=
    ReqReachable.step _ _ h1 (ReqStep.workerRelease _ rfl rfl)
  have h3 : ReqReachable 7 0 ⟨XLock.lockedNoWaiters, 7, true, true, true, none⟩ :=
    ReqReachable.step _ _ h2 (ReqStep.spinAcquire _ rfl rfl)
  have h4 : ReqReachable 7 0
      ⟨XLock.lockedNoWaiters, 7, true, true, true, some 7⟩ :=
    ReqReachable.step _ _ h3 (ReqStep.readResult _ rfl rfl)
  exact xbl_unlock_result_visibility 7 0 _ h4 7 rfl
